import Mathlib

/-!
Verification of the Trumail-compatible email validation service.

The core under verification (from `main.go`) is:
  * `validateEmail`        — the validation orchestrator,
  * `checkMXRecord`        — the MX-resolution gate,
  * `checkSMTPDeliverable` — the SMTP probe state machine,
  * `isDisposableEmail`    — the disposable-domain registry lookup.

External collaborators (the platform DNS resolver `net.LookupMX`, the TCP
dial, the `net/smtp` session, and `os.Getenv`) are modelled by an `Env`
record of response functions.  Since the program issues up to two DNS
queries per request and the live resolver may answer each differently,
`Env.lookupMX` is indexed by the position of the query in the request's
query sequence (0 = orchestrator's `checkMXRecord` call, 1 = the probe's
own call); a deterministic resolver is one whose answer ignores the index.

The probe is embedded in a traced form `checkSMTPDeliverableT` that also
returns the list of externally visible actions (`ProbeEvent`s) in the
order they happen, including the actions of the deferred cleanups
(`defer conn.Close()` and `defer client.Quit()`, which run in LIFO order
on every exit path after their registration point).  `smtp.NewClient`
reads the server's opening greeting; `client.Quit` sends QUIT and closes
the connection (graceful session termination); `conn.Close` is the plain
transport close.
-/

/-- One MX answer record: `host` as returned by the resolver (possibly with
a trailing dot) and its `priority` (lower = more preferred). -/
structure MXRecord where
  host : String
  priority : Nat
deriving DecidableEq

/-- Outcome flags of one SMTP host as an external collaborator: whether the
TCP dial succeeds, whether `smtp.NewClient` succeeds (server greeting read),
and whether the HELO, MAIL FROM and RCPT TO commands each get a positive
reply. -/
structure SMTPSession where
  dialOk : Bool
  newClientOk : Bool
  helloOk : Bool
  mailOk : Bool
  rcptOk : Bool
deriving DecidableEq

/-- The external world as seen by one request: the process environment
(`os.Getenv`, empty string when unset), the DNS resolver (indexed by the
position of the query in this request's query sequence; `none` models
`err != nil` from `net.LookupMX`), and the SMTP behavior of each host. -/
structure Env where
  getEnv : String → String
  lookupMX : Nat → String → Option (List MXRecord)
  smtp : String → SMTPSession

/-- Externally visible actions of the SMTP probe, in program order. -/
inductive ProbeEvent where
  | lookupEv (domain : String)
  | dialEv (hostPort : String)
  | newClientEv (host : String)
  | helloEv (identity : String)
  | mailFromEv (sender : String)
  | rcptToEv (addr : String)
  | clientQuitEv
  | connCloseEv
deriving DecidableEq

/-- The output record of `validateEmail` (Go struct `EmailResult`; the
`XMLName` field of the `main.go` variant is a constant serialization tag
carrying no data and is omitted). -/
structure EmailResult where
  address : String
  username : String
  domain : String
  hostExists : Bool
  deliverable : Bool
  fullInbox : Bool
  catchAll : Bool
  disposable : Bool
  gravatar : Bool
deriving DecidableEq

/-- Go `strings.Split(s, "@")` on the character list: the maximal runs of
characters between occurrences of `'@'` (always at least one part). -/
def goSplit : List Char → List (List Char)
  | [] => [[]]
  | c :: rest =>
    if c = '@' then [] :: goSplit rest
    else
      match goSplit rest with
      | [] => [[c]]
      | g :: gs => (c :: g) :: gs

/-- Go `strings.Split(email, "@")` as a list of strings. -/
def stringsSplit (s : String) : List String :=
  (goSplit s.data).map (fun cs => String.mk cs)

/-- Go `strings.TrimSuffix s suffix`: drop `suffix` from the end of `s`
when present, otherwise return `s` unchanged. -/
def trimSuffix (s suffix : String) : String :=
  if suffix.data.isSuffixOf s.data then
    String.mk (s.data.take (s.data.length - suffix.data.length))
  else s

/-- Character class `[a-zA-Z0-9._%+-]` of the username part of the
structural pattern. -/
def isUserChar (c : Char) : Bool :=
  c.isAlpha || c.isDigit || c = '.' || c = '_' || c = '%' || c = '+' || c = '-'

/-- Character class `[a-zA-Z0-9.-]` of the domain part of the structural
pattern. -/
def isDomainChar (c : Char) : Bool :=
  c.isAlpha || c.isDigit || c = '.' || c = '-'

/-- Semantics of the anchored regex fragment `[a-zA-Z0-9.-]+\.[a-zA-Z]{2,}`
on a character list: some position `i` holds the literal dot, preceded by a
non-empty run of domain characters and followed by at least two letters
reaching the end. -/
def domainTailMatch (v : List Char) : Bool :=
  (List.range v.length).any fun i =>
    v.getD i ' ' == '.' && decide (1 ≤ i) && (v.take i).all isDomainChar &&
      decide (2 ≤ (v.drop (i + 1)).length) && (v.drop (i + 1)).all Char.isAlpha

/-- Semantics of the anchored structural pattern
`^[a-zA-Z0-9._%+-]+@[a-zA-Z0-9.-]+\.[a-zA-Z]{2,}$` (Go
`emailRegex.MatchString`): some position `i` holds the literal `'@'`,
preceded by a non-empty run of username characters, with the rest matching
the domain fragment. -/
def emailRegexMatch (s : String) : Bool :=
  (List.range s.data.length).any fun i =>
    s.data.getD i ' ' == '@' && decide (1 ≤ i) && (s.data.take i).all isUserChar &&
      domainTailMatch (s.data.drop (i + 1))

/-- The compiled-in disposable-domain registry (Go `disposableDomains`). -/
def disposableDomains : List String :=
  ["10minutemail.com", "guerrillamail.com", "mailinator.com",
   "tempmail.org", "throwaway.email", "temp-mail.org"]

/-- Go `strings.ToLower` restricted to its ASCII action (all registry
entries and all pattern-accepted domains are ASCII). -/
def toLowerStr (s : String) : String :=
  String.mk (s.data.map Char.toLower)

/-- Go `isDisposableEmail`: lower-case the domain, then linearly scan the
registry for an exact match. -/
def isDisposableEmail (domain : String) : Bool :=
  disposableDomains.any (fun d => toLowerStr domain == d)

/-- Go `checkMXRecord`: `net.LookupMX(domain)` succeeds (`err == nil`);
`k` is the position of this DNS query in the request's query sequence. -/
def checkMXRecord (env : Env) (k : Nat) (domain : String) : Bool :=
  (env.lookupMX k domain).isSome

/-- Go `checkSMTPDeliverable`, traced: the boolean outcome together with
the list of external actions in the order they happen.  Deferred cleanups
run in LIFO order on exit: `client.Quit()` (registered second) then
`conn.Close()` (registered first).  `k` is the position of the probe's own
`net.LookupMX` call in the request's query sequence. -/
def checkSMTPDeliverableT (env : Env) (k : Nat) (email domain : String) :
    Bool × List ProbeEvent :=
  match env.lookupMX k domain with
  | none => (false, [ProbeEvent.lookupEv domain])
  | some [] => (false, [ProbeEvent.lookupEv domain])
  | some (r :: _) =>
    let mxHost := trimSuffix r.host "."
    let s := env.smtp mxHost
    if !s.dialOk then
      (false, [ProbeEvent.lookupEv domain, ProbeEvent.dialEv (mxHost ++ ":25")])
    else if !s.newClientOk then
      (false, [ProbeEvent.lookupEv domain, ProbeEvent.dialEv (mxHost ++ ":25"),
        ProbeEvent.newClientEv mxHost, ProbeEvent.connCloseEv])
    else
      let v := env.getEnv "SOURCE_ADDR"
      let sourceAddr := if v = "" then "verify@example.com" else v
      if !s.helloOk then
        (false, [ProbeEvent.lookupEv domain, ProbeEvent.dialEv (mxHost ++ ":25"),
          ProbeEvent.newClientEv mxHost, ProbeEvent.helloEv "trumail-validator.com",
          ProbeEvent.clientQuitEv, ProbeEvent.connCloseEv])
      else if !s.mailOk then
        (false, [ProbeEvent.lookupEv domain, ProbeEvent.dialEv (mxHost ++ ":25"),
          ProbeEvent.newClientEv mxHost, ProbeEvent.helloEv "trumail-validator.com",
          ProbeEvent.mailFromEv sourceAddr, ProbeEvent.clientQuitEv, ProbeEvent.connCloseEv])
      else
        (s.rcptOk, [ProbeEvent.lookupEv domain, ProbeEvent.dialEv (mxHost ++ ":25"),
          ProbeEvent.newClientEv mxHost, ProbeEvent.helloEv "trumail-validator.com",
          ProbeEvent.mailFromEv sourceAddr, ProbeEvent.rcptToEv email,
          ProbeEvent.clientQuitEv, ProbeEvent.connCloseEv])

/-- Go `checkSMTPDeliverable`: the boolean outcome of the probe. -/
def checkSMTPDeliverable (env : Env) (k : Nat) (email domain : String) : Bool :=
  (checkSMTPDeliverableT env k email domain).1

/-- Go `validateEmail` (`main.go` variant), traced: the result record
together with the probe's event list (empty when the probe was never
invoked; an invoked probe always emits at least its `lookupEv`).  The
orchestrator's DNS query has index 0, the probe's has index 1. -/
def validateEmailT (env : Env) (email : String) : EmailResult × List ProbeEvent :=
  let parts := stringsSplit email
  if parts.length = 2 then
    let username := parts.getD 0 ""
    let domain := parts.getD 1 ""
    if emailRegexMatch email then
      let hostExists := checkMXRecord env 0 domain
      let probe := if hostExists then checkSMTPDeliverableT env 1 email domain
        else (false, [])
      ({ address := email, username := username, domain := domain,
         hostExists := hostExists, deliverable := probe.1, fullInbox := false,
         catchAll := false, disposable := isDisposableEmail domain,
         gravatar := false }, probe.2)
    else
      ({ address := email, username := username, domain := domain,
         hostExists := false, deliverable := false, fullInbox := false,
         catchAll := false, disposable := false, gravatar := false }, [])
  else
    ({ address := email, username := "", domain := "", hostExists := false,
       deliverable := false, fullInbox := false, catchAll := false,
       disposable := false, gravatar := false }, [])

/-- Go `validateEmail` (`main.go` variant). -/
def validateEmail (env : Env) (email : String) : EmailResult :=
  (validateEmailT env email).1

/-- The probe's event list. -/
def probeTrace (env : Env) (k : Nat) (email domain : String) : List ProbeEvent :=
  (checkSMTPDeliverableT env k email domain).2

/-- Recognizer for dial events. -/
def isDialEv : ProbeEvent → Bool
  | ProbeEvent.dialEv _ => true
  | _ => false

/-- Recognizer for client-setup events. -/
def isNewClientEv : ProbeEvent → Bool
  | ProbeEvent.newClientEv _ => true
  | _ => false

/-- Recognizer for HELO events. -/
def isHelloEv : ProbeEvent → Bool
  | ProbeEvent.helloEv _ => true
  | _ => false

/-- Recognizer for MAIL FROM events. -/
def isMailFromEv : ProbeEvent → Bool
  | ProbeEvent.mailFromEv _ => true
  | _ => false

/-- Recognizer for RCPT TO events. -/
def isRcptToEv : ProbeEvent → Bool
  | ProbeEvent.rcptToEv _ => true
  | _ => false

/-- Recognizer for the plain transport close (`conn.Close`). -/
def isConnCloseEv : ProbeEvent → Bool
  | ProbeEvent.connCloseEv => true
  | _ => false

/-- Recognizer for the graceful session termination (`client.Quit`). -/
def isClientQuitEv : ProbeEvent → Bool
  | ProbeEvent.clientQuitEv => true
  | _ => false

/-- Recognizer for connection-release operations: the spec's two release
forms, graceful session termination (`client.Quit`) and plain close
(`conn.Close`). -/
def isReleaseEv : ProbeEvent → Bool
  | ProbeEvent.clientQuitEv => true
  | ProbeEvent.connCloseEv => true
  | _ => false

/-- An SMTP host on which every stage succeeds. -/
def sessionAllOk : SMTPSession := ⟨true, true, true, true, true⟩

/-- A sample MX record with a trailing dot. -/
def mxExample : MXRecord := ⟨"mx.example.com.", 10⟩

/-- World with one MX record for every domain and a fully accepting SMTP
host; no environment variables set. -/
def envOneMX : Env := ⟨fun _ => "", fun _ _ => some [mxExample], fun _ => sessionAllOk⟩

/-- World whose MX lookups always fail (`err != nil`). -/
def envNoMX : Env := ⟨fun _ => "", fun _ _ => none, fun _ => sessionAllOk⟩

/-- World whose MX lookups always succeed with an empty record set. -/
def envEmptyMX : Env := ⟨fun _ => "", fun _ _ => some [], fun _ => sessionAllOk⟩

/-- World in which every environment variable is set to
`"configured.example"`. -/
def envConfigured : Env :=
  ⟨fun _ => "configured.example", fun _ _ => some [mxExample], fun _ => sessionAllOk⟩

/-- World whose first MX lookup (the orchestrator's) succeeds and whose
second (the probe's own) fails, as a live resolver may do. -/
def envFlaky : Env :=
  ⟨fun _ => "", fun k _ => if k = 0 then some [mxExample] else none, fun _ => sessionAllOk⟩

/-- World returning three MX records sorted ascending by priority. -/
def envSortedMX : Env :=
  ⟨fun _ => "",
   fun _ _ => some [⟨"a.example.", 10⟩, ⟨"b.example.", 20⟩, ⟨"c.example.", 30⟩],
   fun _ => sessionAllOk⟩

namespace Echo

/-- The compiled-in disposable-domain registry of the echo variant
(`part_000`). -/
def disposableDomains : List String :=
  ["10minutemail.com", "guerrillamail.com", "mailinator.com",
   "tempmail.org", "throwaway.email", "temp-mail.org"]

/-- Go `isDisposableEmail`, echo variant (`part_000`). -/
def isDisposableEmail (domain : String) : Bool :=
  Echo.disposableDomains.any (fun d => toLowerStr domain == d)

/-- Go `checkMXRecord`, echo variant (`part_000`). -/
def checkMXRecord (env : Env) (k : Nat) (domain : String) : Bool :=
  (env.lookupMX k domain).isSome

/-- Go `checkSMTPDeliverable`, echo variant (`part_000`), traced the same
way as the `main.go` variant. -/
def checkSMTPDeliverableT (env : Env) (k : Nat) (email domain : String) :
    Bool × List ProbeEvent :=
  match env.lookupMX k domain with
  | none => (false, [ProbeEvent.lookupEv domain])
  | some [] => (false, [ProbeEvent.lookupEv domain])
  | some (r :: _) =>
    let mxHost := trimSuffix r.host "."
    let s := env.smtp mxHost
    if !s.dialOk then
      (false, [ProbeEvent.lookupEv domain, ProbeEvent.dialEv (mxHost ++ ":25")])
    else if !s.newClientOk then
      (false, [ProbeEvent.lookupEv domain, ProbeEvent.dialEv (mxHost ++ ":25"),
        ProbeEvent.newClientEv mxHost, ProbeEvent.connCloseEv])
    else
      let v := env.getEnv "SOURCE_ADDR"
      let sourceAddr := if v = "" then "verify@example.com" else v
      if !s.helloOk then
        (false, [ProbeEvent.lookupEv domain, ProbeEvent.dialEv (mxHost ++ ":25"),
          ProbeEvent.newClientEv mxHost, ProbeEvent.helloEv "trumail-validator.com",
          ProbeEvent.clientQuitEv, ProbeEvent.connCloseEv])
      else if !s.mailOk then
        (false, [ProbeEvent.lookupEv domain, ProbeEvent.dialEv (mxHost ++ ":25"),
          ProbeEvent.newClientEv mxHost, ProbeEvent.helloEv "trumail-validator.com",
          ProbeEvent.mailFromEv sourceAddr, ProbeEvent.clientQuitEv, ProbeEvent.connCloseEv])
      else
        (s.rcptOk, [ProbeEvent.lookupEv domain, ProbeEvent.dialEv (mxHost ++ ":25"),
          ProbeEvent.newClientEv mxHost, ProbeEvent.helloEv "trumail-validator.com",
          ProbeEvent.mailFromEv sourceAddr, ProbeEvent.rcptToEv email,
          ProbeEvent.clientQuitEv, ProbeEvent.connCloseEv])

/-- Go `validateEmail`, echo variant (`part_000`), traced. -/
def validateEmailT (env : Env) (email : String) : EmailResult × List ProbeEvent :=
  let parts := stringsSplit email
  if parts.length = 2 then
    let username := parts.getD 0 ""
    let domain := parts.getD 1 ""
    if emailRegexMatch email then
      let hostExists := Echo.checkMXRecord env 0 domain
      let probe := if hostExists then Echo.checkSMTPDeliverableT env 1 email domain
        else (false, [])
      ({ address := email, username := username, domain := domain,
         hostExists := hostExists, deliverable := probe.1, fullInbox := false,
         catchAll := false, disposable := Echo.isDisposableEmail domain,
         gravatar := false }, probe.2)
    else
      ({ address := email, username := username, domain := domain,
         hostExists := false, deliverable := false, fullInbox := false,
         catchAll := false, disposable := false, gravatar := false }, [])
  else
    ({ address := email, username := "", domain := "", hostExists := false,
       deliverable := false, fullInbox := false, catchAll := false,
       disposable := false, gravatar := false }, [])

/-- Go `validateEmail`, echo variant (`part_000`). -/
def validateEmail (env : Env) (email : String) : EmailResult :=
  (Echo.validateEmailT env email).1

end Echo

/-- Splitting always yields at least one part (as Go `strings.Split` does). -/
theorem goSplit_ne_nil (cs : List Char) : goSplit cs ≠ [] := by
  cases cs with
  | nil => simp [goSplit]
  | cons c rest =>
    simp only [goSplit]
    split
    · simp
    · split <;> simp

/-- The number of parts is one more than the number of `'@'` occurrences. -/
theorem goSplit_length (cs : List Char) : (goSplit cs).length = cs.count '@' + 1 := by
  induction cs with
  | nil => simp [goSplit]
  | cons c rest ih =>
    by_cases hc : c = '@'
    · subst hc
      simp [goSplit, ih, List.count_cons]
    · simp only [goSplit, if_neg hc]
      cases hgs : goSplit rest with
      | nil => exact absurd hgs (goSplit_ne_nil rest)
      | cons g gs =>
        have : (g :: gs).length = rest.count '@' + 1 := hgs ▸ ih
        simpa [List.count_cons, hc] using this

/-- String-level version of `goSplit_length`. -/
theorem stringsSplit_length (s : String) :
    (stringsSplit s).length = s.data.count '@' + 1 := by
  simp [stringsSplit, goSplit_length]

/-- Reduction of the orchestrator on an input that splits into two parts
and passes the structural pattern. -/
theorem validateEmailT_valid (env : Env) (email u d : String)
    (hsplit : stringsSplit email = [u, d]) (hre : emailRegexMatch email = true) :
    validateEmailT env email =
      ({ address := email, username := u, domain := d,
         hostExists := checkMXRecord env 0 d,
         deliverable := (if checkMXRecord env 0 d then
           checkSMTPDeliverableT env 1 email d else (false, [])).1,
         fullInbox := false, catchAll := false,
         disposable := isDisposableEmail d, gravatar := false },
       (if checkMXRecord env 0 d then
         checkSMTPDeliverableT env 1 email d else (false, [])).2) := by
  simp [validateEmailT, hsplit, hre]

/-- C1: for every input string that does not contain exactly one `'@'`, or
that fails the structural pattern, `validateEmail` returns a result in
which every boolean output field (`hostExists`, `deliverable`, `fullInbox`,
`catchAll`, `disposable`, `gravatar`) is false. -/
theorem c1_syntax_failure_all_false (env : Env) (email : String)
    (h : email.data.count '@' ≠ 1 ∨ emailRegexMatch email = false) :
    (validateEmail env email).hostExists = false ∧
    (validateEmail env email).deliverable = false ∧
    (validateEmail env email).fullInbox = false ∧
    (validateEmail env email).catchAll = false ∧
    (validateEmail env email).disposable = false ∧
    (validateEmail env email).gravatar = false := by
  unfold validateEmail validateEmailT
  rcases h with h | h
  · have hlen : ¬ (stringsSplit email).length = 2 := by
      rw [stringsSplit_length]; omega
    simp [hlen]
  · by_cases hlen : (stringsSplit email).length = 2
    · simp [hlen, h]
    · simp [hlen]

/-- C1 witness: the scenario input `"not-an-email"` (zero `'@'`) in a
world whose resolver and SMTP host would accept anything. -/
theorem c1_witness :
    (validateEmail envOneMX "not-an-email").hostExists = false ∧
    (validateEmail envOneMX "not-an-email").deliverable = false ∧
    (validateEmail envOneMX "not-an-email").fullInbox = false ∧
    (validateEmail envOneMX "not-an-email").catchAll = false ∧
    (validateEmail envOneMX "not-an-email").disposable = false ∧
    (validateEmail envOneMX "not-an-email").gravatar = false :=
  c1_syntax_failure_all_false envOneMX "not-an-email" (Or.inl (by decide))

/-- C2 counterexample: a resolver double answering `some []` (empty record
set, no error) on a syntactically valid address makes `checkMXRecord`
return true, so the result has `hostExists = true` (the claim demands
false) and the probe is invoked (its trace is non-empty, the claim demands
no invocation). -/
theorem c2_counterexample :
    emailRegexMatch "user@example.com" = true ∧
    envEmptyMX.lookupMX 0 "example.com" = some [] ∧
    (validateEmail envEmptyMX "user@example.com").hostExists = true ∧
    (validateEmailT envEmptyMX "user@example.com").2 ≠ [] := by decide

/-- C2 (amended): on a syntactically valid address, a failing MX lookup
(`err != nil`) yields `hostExists = false`, `deliverable = false`, and the
probe is never invoked (empty trace); an empty-but-successful lookup
instead yields `hostExists = true`, the probe is invoked, and it stops at
its own empty-record check (trace is just its lookup, no dial), so
`deliverable = false`. -/
theorem c2_amended_resolution_failure (env : Env) (email u d : String)
    (hsplit : stringsSplit email = [u, d]) (hre : emailRegexMatch email = true) :
    (env.lookupMX 0 d = none →
      (validateEmail env email).hostExists = false ∧
      (validateEmail env email).deliverable = false ∧
      (validateEmailT env email).2 = []) ∧
    (∀ l, env.lookupMX 0 d = some l → env.lookupMX 1 d = some [] →
      (validateEmail env email).hostExists = true ∧
      (validateEmail env email).deliverable = false ∧
      (validateEmailT env email).2 = [ProbeEvent.lookupEv d]) := by
  have hv := validateEmailT_valid env email u d hsplit hre
  constructor
  · intro h0
    simp [validateEmail, hv, checkMXRecord, h0]
  · intro l h0 h1
    simp [validateEmail, hv, checkMXRecord, h0, checkSMTPDeliverableT, h1]

/-- C2 witness: both amended branches at concrete worlds — a failing
lookup (`envNoMX`) and an empty-but-successful lookup (`envEmptyMX`). -/
theorem c2_witness :
    ((validateEmail envNoMX "user@example.com").hostExists = false ∧
     (validateEmail envNoMX "user@example.com").deliverable = false ∧
     (validateEmailT envNoMX "user@example.com").2 = []) ∧
    ((validateEmail envEmptyMX "user@example.com").hostExists = true ∧
     (validateEmail envEmptyMX "user@example.com").deliverable = false ∧
     (validateEmailT envEmptyMX "user@example.com").2 =
       [ProbeEvent.lookupEv "example.com"]) :=
  ⟨(c2_amended_resolution_failure envNoMX "user@example.com" "user" "example.com"
      (by decide) (by decide)).1 rfl,
   (c2_amended_resolution_failure envEmptyMX "user@example.com" "user" "example.com"
      (by decide) (by decide)).2 [] rfl rfl⟩

/-- C3: the SMTP probe is a strictly sequential single-attempt state
machine: it returns true exactly when connect, the greeting exchange
(server greeting read by client setup, then HELO), and MAIL FROM all
succeed and RCPT TO gets a positive reply; each protocol command is issued
at most once (no retry), and a failure at any stage issues no further
protocol commands. -/
theorem c3_probe_state_machine (env : Env) (k : Nat) (email domain : String)
    (r : MXRecord) (rs : List MXRecord)
    (h : env.lookupMX k domain = some (r :: rs)) :
    (checkSMTPDeliverable env k email domain =
      ((env.smtp (trimSuffix r.host ".")).dialOk &&
        ((env.smtp (trimSuffix r.host ".")).newClientOk &&
          (env.smtp (trimSuffix r.host ".")).helloOk) &&
        (env.smtp (trimSuffix r.host ".")).mailOk &&
        (env.smtp (trimSuffix r.host ".")).rcptOk)) ∧
    (probeTrace env k email domain).countP isDialEv ≤ 1 ∧
    (probeTrace env k email domain).countP isHelloEv ≤ 1 ∧
    (probeTrace env k email domain).countP isMailFromEv ≤ 1 ∧
    (probeTrace env k email domain).countP isRcptToEv ≤ 1 ∧
    ((env.smtp (trimSuffix r.host ".")).dialOk = false →
      (probeTrace env k email domain).countP isNewClientEv = 0 ∧
      (probeTrace env k email domain).countP isHelloEv = 0 ∧
      (probeTrace env k email domain).countP isMailFromEv = 0 ∧
      (probeTrace env k email domain).countP isRcptToEv = 0) ∧
    ((env.smtp (trimSuffix r.host ".")).newClientOk = false →
      (probeTrace env k email domain).countP isHelloEv = 0 ∧
      (probeTrace env k email domain).countP isMailFromEv = 0 ∧
      (probeTrace env k email domain).countP isRcptToEv = 0) ∧
    ((env.smtp (trimSuffix r.host ".")).helloOk = false →
      (probeTrace env k email domain).countP isMailFromEv = 0 ∧
      (probeTrace env k email domain).countP isRcptToEv = 0) ∧
    ((env.smtp (trimSuffix r.host ".")).mailOk = false →
      (probeTrace env k email domain).countP isRcptToEv = 0) := by
  simp only [checkSMTPDeliverable, probeTrace, checkSMTPDeliverableT, h]
  generalize env.smtp (trimSuffix r.host ".") = s
  rcases s with ⟨d1, n1, h1, m1, r1⟩
  cases d1 <;> cases n1 <;> cases h1 <;> cases m1 <;> cases r1 <;>
    simp [isDialEv, isHelloEv, isMailFromEv, isRcptToEv, isNewClientEv,
      List.countP_cons, List.countP_nil]

/-- C3 witness: the probe in a world with one MX record and an SMTP host
accepting every stage. -/
theorem c3_witness :
    (checkSMTPDeliverable envOneMX 1 "user@example.com" "example.com" =
      ((envOneMX.smtp (trimSuffix mxExample.host ".")).dialOk &&
        ((envOneMX.smtp (trimSuffix mxExample.host ".")).newClientOk &&
          (envOneMX.smtp (trimSuffix mxExample.host ".")).helloOk) &&
        (envOneMX.smtp (trimSuffix mxExample.host ".")).mailOk &&
        (envOneMX.smtp (trimSuffix mxExample.host ".")).rcptOk)) ∧
    (probeTrace envOneMX 1 "user@example.com" "example.com").countP isDialEv ≤ 1 ∧
    (probeTrace envOneMX 1 "user@example.com" "example.com").countP isHelloEv ≤ 1 ∧
    (probeTrace envOneMX 1 "user@example.com" "example.com").countP isMailFromEv ≤ 1 ∧
    (probeTrace envOneMX 1 "user@example.com" "example.com").countP isRcptToEv ≤ 1 ∧
    ((envOneMX.smtp (trimSuffix mxExample.host ".")).dialOk = false →
      (probeTrace envOneMX 1 "user@example.com" "example.com").countP isNewClientEv = 0 ∧
      (probeTrace envOneMX 1 "user@example.com" "example.com").countP isHelloEv = 0 ∧
      (probeTrace envOneMX 1 "user@example.com" "example.com").countP isMailFromEv = 0 ∧
      (probeTrace envOneMX 1 "user@example.com" "example.com").countP isRcptToEv = 0) ∧
    ((envOneMX.smtp (trimSuffix mxExample.host ".")).newClientOk = false →
      (probeTrace envOneMX 1 "user@example.com" "example.com").countP isHelloEv = 0 ∧
      (probeTrace envOneMX 1 "user@example.com" "example.com").countP isMailFromEv = 0 ∧
      (probeTrace envOneMX 1 "user@example.com" "example.com").countP isRcptToEv = 0) ∧
    ((envOneMX.smtp (trimSuffix mxExample.host ".")).helloOk = false →
      (probeTrace envOneMX 1 "user@example.com" "example.com").countP isMailFromEv = 0 ∧
      (probeTrace envOneMX 1 "user@example.com" "example.com").countP isRcptToEv = 0) ∧
    ((envOneMX.smtp (trimSuffix mxExample.host ".")).mailOk = false →
      (probeTrace envOneMX 1 "user@example.com" "example.com").countP isRcptToEv = 0) :=
  c3_probe_state_machine envOneMX 1 "user@example.com" "example.com" mxExample [] rfl

/-- C4 counterexample: the input `"!@mailinator.com"` splits into exactly
two parts with the non-empty domain `"mailinator.com"`, a registry entry,
but because it fails the structural pattern the returned `disposable`
field is false while the registry lookup on that domain is true — the
field is not computed from the parsed domain independently of the
structural-pattern outcome. -/
theorem c4_counterexample :
    stringsSplit "!@mailinator.com" = ["!", "mailinator.com"] ∧
    (validateEmail envOneMX "!@mailinator.com").domain = "mailinator.com" ∧
    (validateEmail envOneMX "!@mailinator.com").disposable = false ∧
    isDisposableEmail "mailinator.com" = true := by decide

/-- C4 (amended): for every input whose split yielded exactly two parts
and that passes the structural pattern, the `disposable` field equals the
registry lookup on the parsed domain, independent of the resolution and
probe outcomes (the world `env` is arbitrary); when the structural pattern
fails, `disposable` is false without consulting the registry. -/
theorem c4_amended_disposable_from_domain (env : Env) (email u d : String)
    (hsplit : stringsSplit email = [u, d]) :
    (emailRegexMatch email = true →
      (validateEmail env email).disposable = isDisposableEmail d) ∧
    (emailRegexMatch email = false →
      (validateEmail env email).disposable = false) := by
  constructor
  · intro hre
    have hv := validateEmailT_valid env email u d hsplit hre
    simp [validateEmail, hv]
  · intro hre
    have hlen : (stringsSplit email).length = 2 := by rw [hsplit]; rfl
    simp [validateEmail, validateEmailT, hsplit, hre]

/-- C4 witness: both amended branches at concrete inputs — a pattern-valid
registry domain probed in a world that would reject everything, and the
pattern-invalid counterexample input. -/
theorem c4_witness :
    ((validateEmail envNoMX "user@mailinator.com").disposable =
      isDisposableEmail "mailinator.com") ∧
    ((validateEmail envNoMX "!@mailinator.com").disposable = false) :=
  ⟨(c4_amended_disposable_from_domain envNoMX "user@mailinator.com" "user"
      "mailinator.com" (by decide)).1 (by decide),
   (c4_amended_disposable_from_domain envNoMX "!@mailinator.com" "!"
      "mailinator.com" (by decide)).2 (by decide)⟩

/-- C5 counterexample: on the established-session success path both
deferred cleanups run — the graceful `client.Quit` and then the plain
`conn.Close` — so the transport connection receives two release
operations, not exactly one. -/
theorem c5_counterexample :
    (validateEmail envOneMX "user@example.com").deliverable = true ∧
    (validateEmailT envOneMX "user@example.com").2.countP isClientQuitEv = 1 ∧
    (validateEmailT envOneMX "user@example.com").2.countP isConnCloseEv = 1 ∧
    (validateEmailT envOneMX "user@example.com").2.countP isReleaseEv = 2 := by decide

/-- C5 (amended): on every probe exit path an opened connection is
released at least once and never leaked: a failed dial opens no connection
and releases nothing; a failed client setup performs exactly one plain
close and no quit; once the session is established, every exit performs
exactly one graceful quit followed by the one deferred plain close — two
release operations on the connection, not exactly one. -/
theorem c5_amended_teardown (env : Env) (k : Nat) (email domain : String)
    (r : MXRecord) (rs : List MXRecord)
    (h : env.lookupMX k domain = some (r :: rs)) :
    ((env.smtp (trimSuffix r.host ".")).dialOk = false →
      (probeTrace env k email domain).countP isReleaseEv = 0) ∧
    ((env.smtp (trimSuffix r.host ".")).dialOk = true →
      (env.smtp (trimSuffix r.host ".")).newClientOk = false →
      (probeTrace env k email domain).countP isConnCloseEv = 1 ∧
      (probeTrace env k email domain).countP isClientQuitEv = 0) ∧
    ((env.smtp (trimSuffix r.host ".")).dialOk = true →
      (env.smtp (trimSuffix r.host ".")).newClientOk = true →
      (probeTrace env k email domain).countP isConnCloseEv = 1 ∧
      (probeTrace env k email domain).countP isClientQuitEv = 1 ∧
      (probeTrace env k email domain).drop
          ((probeTrace env k email domain).length - 2) =
        [ProbeEvent.clientQuitEv, ProbeEvent.connCloseEv]) := by
  simp only [probeTrace, checkSMTPDeliverableT, h]
  generalize env.smtp (trimSuffix r.host ".") = s
  rcases s with ⟨d1, n1, h1, m1, r1⟩
  cases d1 <;> cases n1 <;> cases h1 <;> cases m1 <;> cases r1 <;>
    refine ⟨?_, ?_, ?_⟩ <;> intro hh <;>
    first
      | exact Bool.noConfusion hh
      | exact rfl
      | (intro hh2
         first
           | exact Bool.noConfusion hh2
           | exact ⟨rfl, rfl⟩
           | exact ⟨rfl, rfl, rfl⟩)

/-- C5 witness: the amended teardown facts at a concrete world whose SMTP
host accepts every stage. -/
theorem c5_witness :
    ((envOneMX.smtp (trimSuffix mxExample.host ".")).dialOk = false →
      (probeTrace envOneMX 1 "user@example.com" "example.com").countP isReleaseEv = 0) ∧
    ((envOneMX.smtp (trimSuffix mxExample.host ".")).dialOk = true →
      (envOneMX.smtp (trimSuffix mxExample.host ".")).newClientOk = false →
      (probeTrace envOneMX 1 "user@example.com" "example.com").countP isConnCloseEv = 1 ∧
      (probeTrace envOneMX 1 "user@example.com" "example.com").countP isClientQuitEv = 0) ∧
    ((envOneMX.smtp (trimSuffix mxExample.host ".")).dialOk = true →
      (envOneMX.smtp (trimSuffix mxExample.host ".")).newClientOk = true →
      (probeTrace envOneMX 1 "user@example.com" "example.com").countP isConnCloseEv = 1 ∧
      (probeTrace envOneMX 1 "user@example.com" "example.com").countP isClientQuitEv = 1 ∧
      (probeTrace envOneMX 1 "user@example.com" "example.com").drop
          ((probeTrace envOneMX 1 "user@example.com" "example.com").length - 2) =
        [ProbeEvent.clientQuitEv, ProbeEvent.connCloseEv]) :=
  c5_amended_teardown envOneMX 1 "user@example.com" "example.com" mxExample [] rfl

/-- C6: the probe attempts at most one connection, always to the first
record of the resolver's sequence with its trailing dot stripped; under
the resolver's contract that the sequence is sorted ascending by priority,
that record is a most-preferred exchanger; no other host is ever dialed
(no fallback). -/
theorem c6_single_exchanger (env : Env) (k : Nat) (email domain : String)
    (r : MXRecord) (rs : List MXRecord)
    (h : env.lookupMX k domain = some (r :: rs))
    (hsorted : (r :: rs).Pairwise (fun a b => a.priority ≤ b.priority)) :
    (∀ m ∈ r :: rs, r.priority ≤ m.priority) ∧
    (probeTrace env k email domain).countP isDialEv ≤ 1 ∧
    ((probeTrace env k email domain).filter isDialEv = [] ∨
      (probeTrace env k email domain).filter isDialEv =
        [ProbeEvent.dialEv (trimSuffix r.host "." ++ ":25")]) := by
  refine ⟨?_, ?_⟩
  · intro m hm
    rcases List.mem_cons.mp hm with hm | hm
    · exact hm ▸ le_refl _
    · exact (List.pairwise_cons.mp hsorted).1 m hm
  · simp only [probeTrace, checkSMTPDeliverableT, h]
    generalize env.smtp (trimSuffix r.host ".") = s
    rcases s with ⟨d1, n1, h1, m1, r1⟩
    cases d1 <;> cases n1 <;> cases h1 <;> cases m1 <;> cases r1 <;>
      refine ⟨?_, ?_⟩ <;>
      first
        | exact Nat.zero_le 1
        | exact Nat.le_refl 1
        | exact Or.inl rfl
        | exact Or.inr rfl

/-- C6 witness: a resolver answer with priorities `[10, 20, 30]` (sorted
ascending): the probed host is the priority-10 exchanger `a.example`, dot
stripped. -/
theorem c6_witness :
    (∀ m ∈ [(⟨"a.example.", 10⟩ : MXRecord), ⟨"b.example.", 20⟩, ⟨"c.example.", 30⟩],
      (⟨"a.example.", 10⟩ : MXRecord).priority ≤ m.priority) ∧
    (probeTrace envSortedMX 1 "user@example.com" "example.com").countP isDialEv ≤ 1 ∧
    ((probeTrace envSortedMX 1 "user@example.com" "example.com").filter isDialEv = [] ∨
      (probeTrace envSortedMX 1 "user@example.com" "example.com").filter isDialEv =
        [ProbeEvent.dialEv (trimSuffix (⟨"a.example.", 10⟩ : MXRecord).host "." ++ ":25")]) :=
  c6_single_exchanger envSortedMX 1 "user@example.com" "example.com"
    ⟨"a.example.", 10⟩ [⟨"b.example.", 20⟩, ⟨"c.example.", 30⟩] rfl (by decide)

/-- Registry membership characterization of `isDisposableEmail`: the
lower-cased domain is exactly one of the registry entries. -/
theorem isDisposableEmail_iff (domain : String) :
    isDisposableEmail domain = true ↔ toLowerStr domain ∈ disposableDomains := by
  unfold isDisposableEmail
  rw [List.any_eq_true]
  constructor
  · rintro ⟨x, hx, hbeq⟩
    rw [beq_iff_eq] at hbeq
    rwa [hbeq]
  · intro hmem
    exact ⟨toLowerStr domain, hmem, beq_iff_eq.mpr rfl⟩

/-- C7: on a syntactically valid address the `disposable` field is true
exactly when the lower-cased parsed domain is an element of the fixed
registry (case-insensitive exact match), with no wildcard or subdomain
matching: `mail.mailinator.com` does not match, while any address with
domain case-insensitively equal to `mailinator.com` is classified
disposable. -/
theorem c7_disposable_registry_match (env : Env) (email u d : String)
    (hsplit : stringsSplit email = [u, d]) (hre : emailRegexMatch email = true) :
    ((validateEmail env email).disposable = true ↔
      toLowerStr d ∈ disposableDomains) ∧
    isDisposableEmail "mail.mailinator.com" = false ∧
    (validateEmail env "user@mailinator.com").disposable = true := by
  refine ⟨?_, by decide, ?_⟩
  · have hv := validateEmailT_valid env email u d hsplit hre
    rw [validateEmail, hv]
    exact isDisposableEmail_iff d
  · have hv := validateEmailT_valid env "user@mailinator.com" "user"
      "mailinator.com" (by decide) (by decide)
    rw [validateEmail, hv]
    show isDisposableEmail "mailinator.com" = true
    decide

/-- C7 witness: the upper-cased domain `MAILINATOR.com` still matches the
registry entry case-insensitively. -/
theorem c7_witness :
    ((validateEmail envNoMX "user@MAILINATOR.com").disposable = true ↔
      toLowerStr "MAILINATOR.com" ∈ disposableDomains) ∧
    isDisposableEmail "mail.mailinator.com" = false ∧
    (validateEmail envNoMX "user@mailinator.com").disposable = true :=
  c7_disposable_registry_match envNoMX "user@MAILINATOR.com" "user"
    "MAILINATOR.com" (by decide) (by decide)

/-- C8 counterexample: in a world whose every environment variable is set
to `"configured.example"`, the greeting is still issued with the
hard-coded identity `"trumail-validator.com"` — no configuration reaches
the HELO identity (the MAIL FROM sender, by contrast, does take the
configured value). -/
theorem c8_counterexample :
    envConfigured.getEnv "HELO_IDENTITY" = "configured.example" ∧
    envConfigured.getEnv "SOURCE_ADDR" = "configured.example" ∧
    (probeTrace envConfigured 1 "user@example.com" "example.com").countP
      (fun e => e == ProbeEvent.helloEv "configured.example") = 0 ∧
    (probeTrace envConfigured 1 "user@example.com" "example.com").countP
      (fun e => e == ProbeEvent.helloEv "trumail-validator.com") = 1 ∧
    (probeTrace envConfigured 1 "user@example.com" "example.com").countP
      (fun e => e == ProbeEvent.mailFromEv "configured.example") = 1 := by decide

/-- C8 (amended): every greeting is issued with the fixed hard-coded
identity `"trumail-validator.com"` (not configurable), and every MAIL FROM
uses the `SOURCE_ADDR` environment variable when non-empty, defaulting to
the fixed placeholder `"verify@example.com"`. -/
theorem c8_amended_identity_and_sender (env : Env) (k : Nat)
    (email domain id snd : String)
    (hh : ProbeEvent.helloEv id ∈ probeTrace env k email domain)
    (hm : ProbeEvent.mailFromEv snd ∈ probeTrace env k email domain) :
    id = "trumail-validator.com" ∧
    snd = (if env.getEnv "SOURCE_ADDR" = "" then "verify@example.com"
      else env.getEnv "SOURCE_ADDR") := by
  rcases hl : env.lookupMX k domain with _ | l
  · simp [probeTrace, checkSMTPDeliverableT, hl] at hh
  · cases l with
    | nil => simp [probeTrace, checkSMTPDeliverableT, hl] at hh
    | cons r rs =>
      simp only [probeTrace, checkSMTPDeliverableT, hl] at hh hm
      rcases hsm : env.smtp (trimSuffix r.host ".") with ⟨d1, n1, h1, m1, r1⟩
      rw [hsm] at hh hm
      cases d1 <;> cases n1 <;> cases h1 <;> cases m1 <;> cases r1 <;> simp_all

/-- C8 witness: in the fully configured world the greeting identity is the
hard-coded string and the sender is the configured `SOURCE_ADDR`. -/
theorem c8_witness :
    ProbeEvent.helloEv "trumail-validator.com" ∈
      probeTrace envConfigured 1 "user@example.com" "example.com" ∧
    ProbeEvent.mailFromEv "configured.example" ∈
      probeTrace envConfigured 1 "user@example.com" "example.com" ∧
    ("trumail-validator.com" = "trumail-validator.com" ∧
     "configured.example" = (if envConfigured.getEnv "SOURCE_ADDR" = "" then
       "verify@example.com" else envConfigured.getEnv "SOURCE_ADDR")) :=
  ⟨by decide, by decide,
   c8_amended_identity_and_sender envConfigured 1 "user@example.com"
     "example.com" "trumail-validator.com" "configured.example"
     (by decide) (by decide)⟩

/-- C9: the probe performs its own second, independent MX lookup rather
than receiving the orchestrator's resolution result: on a syntactically
valid address, when the orchestrator's lookup (query 0) succeeds but the
probe's own lookup (query 1) fails or returns an empty record list, the
result has `hostExists = true` and `deliverable = false`, and no
connection is ever attempted (no dial event in the trace). -/
theorem c9_probe_second_lookup (env : Env) (email u d : String)
    (l : List MXRecord)
    (hsplit : stringsSplit email = [u, d]) (hre : emailRegexMatch email = true)
    (h0 : env.lookupMX 0 d = some l)
    (h1 : env.lookupMX 1 d = none ∨ env.lookupMX 1 d = some []) :
    (validateEmail env email).hostExists = true ∧
    (validateEmail env email).deliverable = false ∧
    (validateEmailT env email).2.countP isDialEv = 0 := by
  have hv := validateEmailT_valid env email u d hsplit hre
  rcases h1 with h1 | h1 <;>
    simp [validateEmail, hv, checkMXRecord, h0, checkSMTPDeliverableT, h1,
      isDialEv, List.countP_cons, List.countP_nil]

/-- C9 witness: a live resolver whose first answer has one record and
whose second answer fails. -/
theorem c9_witness :
    (validateEmail envFlaky "user@example.com").hostExists = true ∧
    (validateEmail envFlaky "user@example.com").deliverable = false ∧
    (validateEmailT envFlaky "user@example.com").2.countP isDialEv = 0 :=
  c9_probe_second_lookup envFlaky "user@example.com" "user" "example.com"
    [mxExample] (by decide) (by decide) rfl (Or.inl rfl)

/-- C10: the two source variants implement the same core: for every input
string and identical collaborator behavior (the same world `env`),
`validateEmail` of the `main.go` variant and `validateEmail` of the echo
variant (`part_000`) return equal result records field for field, and
their probes produce identical traces. -/
theorem c10_variants_equivalent (env : Env) (email : String) :
    validateEmail env email = Echo.validateEmail env email ∧
    (validateEmailT env email).2 = (Echo.validateEmailT env email).2 :=
  ⟨rfl, rfl⟩
